import Mathlib

/-!
Verification of the CheckDosDevice utility (src/CheckDosDevice.c).

The development shallowly embeds the device-registry inspection logic:
BCPL (length-prefixed) string decoding, the two device-list traversals,
mount-status classification, the DosType-to-handler mapping, mountlist
rendering, and the control flow of `main`.  OS services (driver probe,
Lock/Info, allocations, the volume node reachable from InfoData) are
modelled as an oracle structure `OSModel`; the device list is a Lean list
of `DeviceNode` records mirroring the fields the C code reads.
-/

namespace CheckDosDevice

/-- BCPL string: the payload bytes after the length byte.  The stored
length byte equals the payload length (0–255 by encoding). -/
abbrev BStr := List Char

/-- Decode of an embedded BCPL name into a C buffer of `cap` bytes, as the
source does at every site: the pointer must be non-null (`none` models a
null pointer or a zero BPTR), the length byte read through a signed `char`
must be positive (so length 1–127), and the copy happens only when
`len < cap - 1`.  Returns `none` exactly when the source skips the name. -/
def decodeBstr (cap : Nat) (b : Option BStr) : Option String :=
  match b with
  | none => none
  | some l =>
      if 0 < l.length ∧ l.length ≤ 127 ∧ l.length < cap - 1 then
        some (String.mk l)
      else
        none

/-- ASCII lower-casing of one character, as `stricmp` does. -/
def lowerChar (c : Char) : Char :=
  if 'A' ≤ c ∧ c ≤ 'Z' then Char.ofNat (c.toNat + 32) else c

/-- Case-insensitive string equality (`stricmp(a,b) == 0`). -/
def striEq (a b : String) : Bool :=
  a.data.map lowerChar == b.data.map lowerChar

/-- One character of `IsNumber`: the source tests `*p < '0' || *p > '9'`. -/
def isDigitChar (c : Char) : Bool :=
  '0' ≤ c && c ≤ '9'

/-- Embedding of `IsNumber`: non-null non-empty string of decimal digits. -/
def IsNumber (s : String) : Bool :=
  !s.data.isEmpty && s.data.all isDigitChar

/-- Embedding of `atol` on an all-digit string, wrapped to 32 bits as the
LONG result is when compared against the ULONG `fssm_Unit`. -/
def atolDigits (s : String) : Nat :=
  (s.data.foldl (fun acc c => acc * 10 + (c.toNat - 48)) 0) % 4294967296

/-- Embedding of `GetHandlerFromDosType`: the switch over known DosType
tags, the CrossDOS three-byte-prefix test, and the FFS default. -/
def GetHandlerFromDosType (dosType : Nat) : String :=
  if dosType = 0x444F5300 ∨ dosType = 0x444F5301 ∨ dosType = 0x444F5302 ∨
     dosType = 0x444F5303 ∨ dosType = 0x444F5304 ∨ dosType = 0x444F5305 ∨
     dosType = 0x444F5306 ∨ dosType = 0x444F5307 then
    "L:FastFileSystem"
  else if dosType = 0x50465300 ∨ dosType = 0x50465301 ∨ dosType = 0x50465302 then
    "L:PFSFileSystem"
  else if dosType = 0x53465300 then
    "L:SmartFilesystem"
  else if dosType = 0x4E425500 ∨ dosType = 0x4E425520 then
    "L:NetBSDFileSystem"
  else if dosType = 0x6D756673 then
    "L:MultiUserFileSystem"
  else if dosType = 0x41465300 ∨ dosType = 0x41465301 then
    "L:AmiFileSafe"
  else if dosType &&& 0xFFFFFF00 = 0x4D534400 then
    "L:CrossDOSFileSystem"
  else
    "L:FastFileSystem"

/-- The closed table of DosType tags named by the switch cases. -/
def knownDosTypes : List Nat :=
  [0x444F5300, 0x444F5301, 0x444F5302, 0x444F5303,
   0x444F5304, 0x444F5305, 0x444F5306, 0x444F5307,
   0x50465300, 0x50465301, 0x50465302,
   0x53465300,
   0x4E425500, 0x4E425520,
   0x6D756673,
   0x41465300, 0x41465301]

/-- Set of handler strings the mapping can produce. -/
def handlerTable : List String :=
  ["L:FastFileSystem", "L:PFSFileSystem", "L:SmartFilesystem",
   "L:NetBSDFileSystem", "L:MultiUserFileSystem", "L:AmiFileSafe",
   "L:CrossDOSFileSystem"]

/-- Fields of `struct DosEnvec` the program reads.  All values are 32-bit
patterns stored as `Nat`. -/
structure DosEnvec where
  de_TableSize : Nat
  de_Surfaces : Nat
  de_BlocksPerTrack : Nat
  de_Reserved : Nat
  de_Interleave : Nat
  de_LowCyl : Nat
  de_HighCyl : Nat
  de_NumBuffers : Nat
  de_BufMemType : Nat
  de_MaxTransfer : Nat
  de_Mask : Nat
  de_BootPri : Nat
  de_DosType : Nat
deriving DecidableEq

/-- Fields of `struct FileSysStartupMsg` the program reads.  `fssm_Device`
is the BCPL driver-name string (`none` models a zero BPTR or null pointer),
`fssm_Environ` the optional environment vector. -/
structure FileSysStartupMsg where
  fssm_Device : Option BStr
  fssm_Unit : Nat
  fssm_Flags : Nat
  fssm_Environ : Option DosEnvec
deriving DecidableEq

/-- Fields of `struct DeviceNode` the program reads. -/
structure DeviceNode where
  dn_Type : Nat
  dn_Name : Option BStr
  dn_Startup : Option FileSysStartupMsg
  dn_Handler : Option BStr
deriving DecidableEq

/-- Oracle for the OS services the program calls.  Lock, Info, the media
type and the volume node are keyed by the clean device name the program
built the path from. -/
structure OSModel where
  createMsgPort : Bool
  createIORequest : Bool
  openDeviceOk : String → Bool
  devList : List DeviceNode
  lockOk : String → Bool
  allocInfoData : Bool
  infoOk : String → Bool
  diskType : String → Nat
  volName : String → Option BStr

/-- Bit pattern of the LONG sentinel `ID_NO_DISK_PRESENT` (-1L). -/
def ID_NO_DISK_PRESENT : Nat := 4294967295

/-- Embedding of `CheckDeviceDriver`: port allocation, IO-request
allocation, then the OpenDevice probe; any failure yields FALSE. -/
def CheckDeviceDriver (os : OSModel) (driverName : String) : Bool :=
  if os.createMsgPort then
    if os.createIORequest then os.openDeviceOk driverName else false
  else false

/-- Embedding of `FindDosDevice`: forward scan, decode each entry name
into the 108-byte buffer, case-insensitive comparison, first match wins;
undecodable names are skipped. -/
def FindDosDevice (dlist : List DeviceNode) (deviceName : String) :
    Option DeviceNode :=
  match dlist with
  | [] => none
  | node :: rest =>
      match decodeBstr 108 node.dn_Name with
      | some devName =>
          if striEq devName deviceName then some node
          else FindDosDevice rest deviceName
      | none => FindDosDevice rest deviceName

/-- Embedding of `FindDeviceByDriverAndUnit` at the call shape `main`
uses (non-null `foundName` of 108 bytes).  Returns the copied-out device
name on success.  On a driver+unit match the loop sets `found` only when
the entry's own `dn_Name` is non-null with positive signed length byte,
and copies it out only when it also fits the buffer (`len < 107`);
otherwise the scan continues. -/
def FindDeviceByDriverAndUnit (dlist : List DeviceNode) (driverName : String)
    (unitNum : Nat) : Option String :=
  match dlist with
  | [] => none
  | node :: rest =>
      match node.dn_Startup with
      | some st =>
          match decodeBstr 108 st.fssm_Device with
          | some devName =>
              if striEq devName driverName ∧ st.fssm_Unit = unitNum then
                match node.dn_Name with
                | some l =>
                    if 0 < l.length ∧ l.length ≤ 127 then
                      some (if l.length < 107 then String.mk l else "")
                    else FindDeviceByDriverAndUnit rest driverName unitNum
                | none => FindDeviceByDriverAndUnit rest driverName unitNum
              else FindDeviceByDriverAndUnit rest driverName unitNum
          | none => FindDeviceByDriverAndUnit rest driverName unitNum
      | none => FindDeviceByDriverAndUnit rest driverName unitNum

/-- Embedding of `StripDeviceName` with the 108-byte destination buffer
used at every call site: `strncpy` keeps the first 107 characters, then
one trailing colon, if present, is removed. -/
def StripDeviceName (deviceName : String) : String :=
  if (deviceName.data.take 107).getLast? = some ':' then
    String.mk (deviceName.data.take 107).dropLast
  else
    String.mk (deviceName.data.take 107)

/-- Embedding of `CheckDeviceStatus` with the 64-byte volume-name buffer
`main` passes: strip the name, look it up, then Lock / AllocMem / Info /
disk-type sentinel, decoding the volume name best-effort.  Result codes:
0 = volume mounted, 1 = no disk, -1 = device not found (also the default
kept when the InfoData allocation or the Info call fails). -/
def CheckDeviceStatus (os : OSModel) (deviceName : String) : Int × String :=
  match FindDosDevice os.devList (StripDeviceName deviceName) with
  | none => (-1, "")
  | some _ =>
      if os.lockOk (StripDeviceName deviceName) then
        if os.allocInfoData then
          if os.infoOk (StripDeviceName deviceName) then
            if os.diskType (StripDeviceName deviceName) ≠ ID_NO_DISK_PRESENT then
              (0, (decodeBstr 64 (os.volName (StripDeviceName deviceName))).getD "")
            else (1, "")
          else (-1, "")
        else (-1, "")
      else (1, "")

/-- One line of the generated mountlist stanza. -/
inductive MLine where
  | header (dev : String)
  | handlerL (h : String) (auto : Bool)
  | handlerManual
  | deviceL (d : String)
  | unitL (u : Nat)
  | flagsL (f : Nat)
  | surfacesL (n : Nat)
  | blocksPerTrackL (n : Nat)
  | reservedL (n : Nat)
  | interleaveL (n : Nat)
  | lowCylL (n : Nat)
  | highCylL (n : Nat)
  | buffersL (n : Nat)
  | bufMemTypeL (n : Nat)
  | maxTransferL (n : Nat)
  | maskL (n : Nat)
  | bootPriL (n : Nat)
  | dosTypeL (n : Nat)
  | noStartup
  | terminator
deriving DecidableEq

/-- Tester for the Reserved line. -/
def MLine.isReservedL : MLine → Bool
  | .reservedL _ => true
  | _ => false

/-- Tester for the Interleave line. -/
def MLine.isInterleaveL : MLine → Bool
  | .interleaveL _ => true
  | _ => false

/-- Tester for the Flags line. -/
def MLine.isFlagsL : MLine → Bool
  | .flagsL _ => true
  | _ => false

/-- Tester for the BufMemType line. -/
def MLine.isBufMemTypeL : MLine → Bool
  | .bufMemTypeL _ => true
  | _ => false

/-- Tester for the MaxTransfer line. -/
def MLine.isMaxTransferL : MLine → Bool
  | .maxTransferL _ => true
  | _ => false

/-- Tester for the Mask line. -/
def MLine.isMaskL : MLine → Bool
  | .maskL _ => true
  | _ => false

/-- Tester for the BootPri line. -/
def MLine.isBootPriL : MLine → Bool
  | .bootPriL _ => true
  | _ => false

/-- Tester for the DosType line. -/
def MLine.isDosTypeL : MLine → Bool
  | .dosTypeL _ => true
  | _ => false

/-- Handler line of `GenerateMountlist`: an explicitly recorded handler
name wins; otherwise, with an environment of table size at least 12 and a
non-zero DosType, the mapped handler is used (flagged as auto-detected);
otherwise the manual-review default line is emitted. -/
def mlHandler (node : DeviceNode) (st : FileSysStartupMsg) : List MLine :=
  match decodeBstr 108 node.dn_Handler with
  | some h => [MLine.handlerL h false]
  | none =>
      match st.fssm_Environ with
      | some env =>
          if 12 ≤ env.de_TableSize ∧ env.de_DosType ≠ 0 then
            [MLine.handlerL (GetHandlerFromDosType env.de_DosType) true]
          else [MLine.handlerManual]
      | none => [MLine.handlerManual]

/-- Device line of `GenerateMountlist`: emitted when the driver name
decodes. -/
def mlDevice (st : FileSysStartupMsg) : List MLine :=
  match decodeBstr 108 st.fssm_Device with
  | some d => [MLine.deviceL d]
  | none => []

/-- Environment lines of `GenerateMountlist`: geometry fields, with
defaulted values omitted, and the extended fields only for table size at
least 12. -/
def mlEnv (env : DosEnvec) : List MLine :=
  [MLine.surfacesL env.de_Surfaces, MLine.blocksPerTrackL env.de_BlocksPerTrack]
  ++ (if env.de_Reserved ≠ 2 then [MLine.reservedL env.de_Reserved] else [])
  ++ (if env.de_Interleave ≠ 0 then [MLine.interleaveL env.de_Interleave] else [])
  ++ [MLine.lowCylL env.de_LowCyl, MLine.highCylL env.de_HighCyl,
      MLine.buffersL env.de_NumBuffers]
  ++ (if 12 ≤ env.de_TableSize then
        (if env.de_BufMemType ≠ 0 then [MLine.bufMemTypeL env.de_BufMemType] else [])
        ++ (if env.de_MaxTransfer ≠ 0x7FFFFFFF then [MLine.maxTransferL env.de_MaxTransfer] else [])
        ++ (if env.de_Mask ≠ 0xFFFFFFFE then [MLine.maskL env.de_Mask] else [])
        ++ (if env.de_BootPri ≠ 0 then [MLine.bootPriL env.de_BootPri] else [])
        ++ (if env.de_DosType ≠ 0x444F5300 then [MLine.dosTypeL env.de_DosType] else [])
      else [])

/-- Embedding of `GenerateMountlist` as the list of emitted lines. -/
def GenerateMountlist (deviceName : String) (node : DeviceNode) : List MLine :=
  [MLine.header deviceName]
  ++ (match node.dn_Startup with
      | none => [MLine.noStartup]
      | some st =>
          mlHandler node st ++ mlDevice st ++ [MLine.unitL st.fssm_Unit]
          ++ (if st.fssm_Flags ≠ 0 then [MLine.flagsL st.fssm_Flags] else [])
          ++ (match st.fssm_Environ with
              | some env => mlEnv env
              | none => []))
  ++ [MLine.terminator]

/-- Observable output events of a run. -/
inductive Out where
  | usage
  | driverUnavailable (drv : String)
  | foundUnit (drv : String) (unit : Nat) (dev : String)
  | noUnitFound (drv : String) (unit : Nat)
  | infoDump (dev : String)
  | mountlistDump (dev : String)
  | statusMounted (dev : String) (vol : String)
  | statusMountedNoName (dev : String)
  | statusNoDisk (dev : String)
  | statusNotFound (dev : String)
deriving DecidableEq

/-- Tester for any of the four plain status lines. -/
def Out.isStatusLine : Out → Bool
  | .statusMounted _ _ => true
  | .statusMountedNoName _ => true
  | .statusNoDisk _ => true
  | .statusNotFound _ => true
  | _ => false

/-- Tester for the device-not-found status line. -/
def Out.isStatusNotFound : Out → Bool
  | .statusNotFound _ => true
  | _ => false

/-- Tester for the info rendering. -/
def Out.isInfoDump : Out → Bool
  | .infoDump _ => true
  | _ => false

/-- Tester for the mountlist rendering. -/
def Out.isMountlistDump : Out → Bool
  | .mountlistDump _ => true
  | _ => false

/-- Parsed command-line arguments (`struct Arguments`). -/
structure Arguments where
  device : String
  quiet : Bool
  driver : Option String
  info : Bool
  mountlist : Bool
deriving DecidableEq

/-- Result of a run: exit code, output events, and whether the
mount-status classification (`CheckDeviceStatus`, which is where Lock is
attempted) ran. -/
structure RunResult where
  exit : Nat
  output : List Out
  ranStatusCheck : Bool
deriving DecidableEq

/-- OPrintf gating: output is emitted unless the quiet flag is set. -/
def emit (quiet : Bool) (e : Out) : List Out :=
  if quiet then [] else [e]

/-- Device-identifier resolution step of `main`: a pure-digit identifier
is resolved through the driver+unit search (announcing the find), any
other identifier is colon-stripped and used directly. -/
def resolveDevice (os : OSModel) (drv : String) (q : Bool) (device : String) :
    Option (String × List Out) :=
  if IsNumber device then
    match FindDeviceByDriverAndUnit os.devList drv (atolDigits device) with
    | some found =>
        some (StripDeviceName found, emit q (Out.foundUnit drv (atolDigits device) found))
    | none => none
  else some (StripDeviceName device, [])

/-- Status line printed for one `CheckDeviceStatus` result. -/
def statusOut (clean : String) (r : Int × String) : Out :=
  if r.1 = 0 then
    (if r.2 ≠ "" then Out.statusMounted clean r.2 else Out.statusMountedNoName clean)
  else if r.1 = 1 then Out.statusNoDisk clean
  else Out.statusNotFound clean

/-- Exit code chosen for one `CheckDeviceStatus` result. -/
def statusRC (r : Int × String) : Nat :=
  if r.1 = 0 then 0 else if r.1 = 1 then 5 else 10

/-- Tail of `main` after the device identifier is resolved: optional info
and mountlist rendering, plain status classification only when neither
was requested, and the final return code (initialised to 10, set to 0
when a requested rendering found its device). -/
def afterResolve (os : OSModel) (args : Arguments) (clean : String)
    (pre : List Out) : RunResult :=
  if args.info || args.mountlist then
    match FindDosDevice os.devList clean with
    | some _ =>
        ⟨0, pre ++ (if args.info then emit args.quiet (Out.infoDump clean) else [])
              ++ (if args.mountlist then emit args.quiet (Out.mountlistDump clean) else []),
         false⟩
    | none => ⟨10, pre, false⟩
  else
    ⟨statusRC (CheckDeviceStatus os clean),
     pre ++ emit args.quiet (statusOut clean (CheckDeviceStatus os clean)),
     true⟩

/-- Embedding of `main`: `none` arguments model a ReadArgs failure (usage
text, code 10); otherwise the driver probe, identifier resolution, and
`afterResolve`. -/
def mainRun (oargs : Option Arguments) (os : OSModel) : RunResult :=
  match oargs with
  | none => ⟨10, [Out.usage], false⟩
  | some args =>
      if CheckDeviceDriver os (args.driver.getD "diskimage.device") then
        match resolveDevice os (args.driver.getD "diskimage.device")
                args.quiet args.device with
        | some (clean, pre) => afterResolve os args clean pre
        | none =>
            ⟨10, emit args.quiet
                   (Out.noUnitFound (args.driver.getD "diskimage.device")
                     (atolDigits args.device)),
             false⟩
      else
        ⟨20, emit args.quiet
               (Out.driverUnavailable (args.driver.getD "diskimage.device")),
         false⟩

end CheckDosDevice

namespace CheckDosDevice

/-- Helper: the classification result when InfoData allocation fails after
a successful lock stays at the device-not-found default. -/
lemma CheckDeviceStatus_alloc_fail (os : OSModel) (name : String)
    (hf : FindDosDevice os.devList (StripDeviceName name) ≠ none)
    (hl : os.lockOk (StripDeviceName name) = true)
    (ha : os.allocInfoData = false) :
    CheckDeviceStatus os name = (-1, "") := by
  obtain ⟨node, hn⟩ := Option.ne_none_iff_exists'.mp hf
  simp [CheckDeviceStatus, hn, hl, ha]

/-- Helper: `mainRun` reduces to `afterResolve` when the driver probe
succeeds and the identifier resolves. -/
lemma mainRun_eq_resolved (os : OSModel) (args : Arguments) (clean : String)
    (pre : List Out)
    (hd : CheckDeviceDriver os (args.driver.getD "diskimage.device") = true)
    (hres : resolveDevice os (args.driver.getD "diskimage.device")
              args.quiet args.device = some (clean, pre)) :
    mainRun (some args) os = afterResolve os args clean pre := by
  simp [mainRun, hd, hres]

end CheckDosDevice

namespace CheckDosDevice

/-- C2: for a device name, the mount-status classification returns the
not-found default when the (colon-stripped) name is absent from the device
list; when it is present, a failed lock classifies as no-disk (code 1); on
a successful lock with the media query performed, the no-disk sentinel
yields code 1 and any other media type yields mounted (code 0) with the
volume name decoded best-effort, an absent or undecodable volume name
giving the empty name rather than an error. -/
theorem CheckDeviceStatus_classification (os : OSModel) (name : String) :
    (FindDosDevice os.devList (StripDeviceName name) = none →
      CheckDeviceStatus os name = (-1, ""))
  ∧ (FindDosDevice os.devList (StripDeviceName name) ≠ none →
      ((os.lockOk (StripDeviceName name) = false →
          CheckDeviceStatus os name = (1, ""))
      ∧ (os.lockOk (StripDeviceName name) = true → os.allocInfoData = true →
          os.infoOk (StripDeviceName name) = true →
          ((os.diskType (StripDeviceName name) = ID_NO_DISK_PRESENT →
              CheckDeviceStatus os name = (1, ""))
          ∧ (os.diskType (StripDeviceName name) ≠ ID_NO_DISK_PRESENT →
              CheckDeviceStatus os name =
                (0, (decodeBstr 64 (os.volName (StripDeviceName name))).getD ""))
          ∧ (os.diskType (StripDeviceName name) ≠ ID_NO_DISK_PRESENT →
              decodeBstr 64 (os.volName (StripDeviceName name)) = none →
              CheckDeviceStatus os name = (0, "")))))) := by
  refine ⟨fun h => ?_, fun h => ?_⟩
  · simp [CheckDeviceStatus, h]
  · obtain ⟨node, hn⟩ := Option.ne_none_iff_exists'.mp h
    refine ⟨fun hl => ?_, fun hl ha hi => ⟨fun hd => ?_, fun hd => ?_, fun hd hv => ?_⟩⟩
    · simp [CheckDeviceStatus, hn, hl]
    · simp [CheckDeviceStatus, hn, hl, ha, hi, hd]
    · simp [CheckDeviceStatus, hn, hl, ha, hi, hd]
    · simp [CheckDeviceStatus, hn, hl, ha, hi, hd, hv]

/-- Sample device node used by concrete witnesses. -/
def wNode : DeviceNode := ⟨0, some ['D', 'F', '0'], none, none⟩

/-- Sample OS state with one device, all services succeeding, media
present, and a decodable volume name. -/
def wOS : OSModel :=
  ⟨true, true, fun _ => true, [wNode], fun _ => true, true, fun _ => true,
   fun _ => 0, fun _ => some ['W', 'o', 'r', 'k']⟩

/-- Witness for C2 at a concrete device and OS state. -/
theorem CheckDeviceStatus_classification_witness :
    CheckDeviceStatus wOS "DF0:" = (0, "Work") := by
  have h := ((CheckDeviceStatus_classification wOS "DF0:").2 (by decide)).2
      (by decide) (by decide) (by decide)
  rw [h.2.1 (by decide)]
  decide

/-- C3: allocation failures degrade to the nearest safe classification:
a failed message-port or IO-request allocation makes the driver probe
report unavailable (and the run exit 20), and a failed InfoData allocation
after a successful lock leaves the status at the not-found default, so a
plain run exits 10 even though the device was found and locked. -/
theorem alloc_failure_degrades (os : OSModel) (args : Arguments) (name : String) :
    (os.createMsgPort = false →
      CheckDeviceDriver os (args.driver.getD "diskimage.device") = false)
  ∧ (os.createIORequest = false →
      CheckDeviceDriver os (args.driver.getD "diskimage.device") = false)
  ∧ (CheckDeviceDriver os (args.driver.getD "diskimage.device") = false →
      (mainRun (some args) os).exit = 20)
  ∧ (FindDosDevice os.devList (StripDeviceName name) ≠ none →
      os.lockOk (StripDeviceName name) = true → os.allocInfoData = false →
      CheckDeviceStatus os name = (-1, ""))
  ∧ (∀ clean pre, args.info = false → args.mountlist = false →
      CheckDeviceDriver os (args.driver.getD "diskimage.device") = true →
      resolveDevice os (args.driver.getD "diskimage.device")
        args.quiet args.device = some (clean, pre) →
      FindDosDevice os.devList (StripDeviceName clean) ≠ none →
      os.lockOk (StripDeviceName clean) = true → os.allocInfoData = false →
      (mainRun (some args) os).exit = 10) := by
  refine ⟨fun h => ?_, fun h => ?_, fun h => ?_, fun hf hl ha => ?_,
    fun clean pre hi hm hd hres hf hl ha => ?_⟩
  · simp [CheckDeviceDriver, h]
  · simp [CheckDeviceDriver, h]
  · simp [mainRun, h]
  · exact CheckDeviceStatus_alloc_fail os name hf hl ha
  · rw [mainRun_eq_resolved os args clean pre hd hres]
    simp [afterResolve, hi, hm, CheckDeviceStatus_alloc_fail os clean hf hl ha, statusRC]

/-- Sample OS state where the InfoData allocation fails. -/
def wOSAllocFail : OSModel :=
  ⟨true, true, fun _ => true, [wNode], fun _ => true, false, fun _ => true,
   fun _ => 0, fun _ => none⟩

/-- Sample plain-mode arguments (no info, no mountlist, not quiet). -/
def wArgsPlain : Arguments := ⟨"DF0", false, none, false, false⟩

/-- Witness for C3: with a present, lockable device but failing InfoData
allocation, the plain run exits 10. -/
theorem alloc_failure_degrades_witness :
    (mainRun (some wArgsPlain) wOSAllocFail).exit = 10 :=
  (alloc_failure_degrades wOSAllocFail wArgsPlain "DF0").2.2.2.2 "DF0" []
    rfl rfl (by decide) (by decide) (by decide) rfl rfl

/-- C6: the DosType-to-handler mapping is total (its result is always one
of the seven handler strings); any tag outside the closed table whose top
three bytes are not the CrossDOS prefix maps to the classic default; any
tag with the CrossDOS three-byte prefix maps to the CrossDOS handler; and
the FFS tag maps to the classic fast-filesystem path. -/
theorem GetHandlerFromDosType_total_default (t : Nat) :
    GetHandlerFromDosType t ∈ handlerTable
  ∧ (t ∉ knownDosTypes → t &&& 0xFFFFFF00 ≠ 0x4D534400 →
      GetHandlerFromDosType t = "L:FastFileSystem")
  ∧ (t &&& 0xFFFFFF00 = 0x4D534400 →
      GetHandlerFromDosType t = "L:CrossDOSFileSystem")
  ∧ GetHandlerFromDosType 0x444F5301 = "L:FastFileSystem" := by
  refine ⟨?_, fun hk hp => ?_, fun hp => ?_, by decide⟩
  · unfold GetHandlerFromDosType
    split_ifs <;> simp [handlerTable]
  · unfold GetHandlerFromDosType
    have n1 : ¬(t = 0x444F5300 ∨ t = 0x444F5301 ∨ t = 0x444F5302 ∨
        t = 0x444F5303 ∨ t = 0x444F5304 ∨ t = 0x444F5305 ∨
        t = 0x444F5306 ∨ t = 0x444F5307) := by
      rintro (rfl | rfl | rfl | rfl | rfl | rfl | rfl | rfl) <;> exact hk (by decide)
    have n2 : ¬(t = 0x50465300 ∨ t = 0x50465301 ∨ t = 0x50465302) := by
      rintro (rfl | rfl | rfl) <;> exact hk (by decide)
    have n3 : ¬(t = 0x53465300) := by rintro rfl; exact hk (by decide)
    have n4 : ¬(t = 0x4E425500 ∨ t = 0x4E425520) := by
      rintro (rfl | rfl) <;> exact hk (by decide)
    have n5 : ¬(t = 0x6D756673) := by rintro rfl; exact hk (by decide)
    have n6 : ¬(t = 0x41465300 ∨ t = 0x41465301) := by
      rintro (rfl | rfl) <;> exact hk (by decide)
    rw [if_neg n1, if_neg n2, if_neg n3, if_neg n4, if_neg n5, if_neg n6, if_neg hp]
  · unfold GetHandlerFromDosType
    have n1 : ¬(t = 0x444F5300 ∨ t = 0x444F5301 ∨ t = 0x444F5302 ∨
        t = 0x444F5303 ∨ t = 0x444F5304 ∨ t = 0x444F5305 ∨
        t = 0x444F5306 ∨ t = 0x444F5307) := by
      rintro (rfl | rfl | rfl | rfl | rfl | rfl | rfl | rfl) <;>
        exact absurd hp (by decide)
    have n2 : ¬(t = 0x50465300 ∨ t = 0x50465301 ∨ t = 0x50465302) := by
      rintro (rfl | rfl | rfl) <;> exact absurd hp (by decide)
    have n3 : ¬(t = 0x53465300) := by rintro rfl; exact absurd hp (by decide)
    have n4 : ¬(t = 0x4E425500 ∨ t = 0x4E425520) := by
      rintro (rfl | rfl) <;> exact absurd hp (by decide)
    have n5 : ¬(t = 0x6D756673) := by rintro rfl; exact absurd hp (by decide)
    have n6 : ¬(t = 0x41465300 ∨ t = 0x41465301) := by
      rintro (rfl | rfl) <;> exact absurd hp (by decide)
    rw [if_neg n1, if_neg n2, if_neg n3, if_neg n4, if_neg n5, if_neg n6, if_pos hp]

/-- Witness for C6 at a concrete unknown tag. -/
theorem GetHandlerFromDosType_total_default_witness :
    GetHandlerFromDosType 305419896 = "L:FastFileSystem" :=
  (GetHandlerFromDosType_total_default 305419896).2.1 (by decide) (by decide)

end CheckDosDevice

namespace CheckDosDevice

/-- Helper: classification when the stripped name is absent from the list. -/
lemma CheckDeviceStatus_not_found (os : OSModel) (name : String)
    (h : FindDosDevice os.devList (StripDeviceName name) = none) :
    CheckDeviceStatus os name = (-1, "") := by
  simp [CheckDeviceStatus, h]

/-- Helper: classification when the device is listed but the lock fails. -/
lemma CheckDeviceStatus_no_lock (os : OSModel) (name : String)
    (hf : FindDosDevice os.devList (StripDeviceName name) ≠ none)
    (hl : os.lockOk (StripDeviceName name) = false) :
    CheckDeviceStatus os name = (1, "") := by
  obtain ⟨node, hn⟩ := Option.ne_none_iff_exists'.mp hf
  simp [CheckDeviceStatus, hn, hl]

/-- Helper: classification when the media query reports the no-disk
sentinel. -/
lemma CheckDeviceStatus_sentinel (os : OSModel) (name : String)
    (hf : FindDosDevice os.devList (StripDeviceName name) ≠ none)
    (hl : os.lockOk (StripDeviceName name) = true)
    (ha : os.allocInfoData = true)
    (hi : os.infoOk (StripDeviceName name) = true)
    (hd : os.diskType (StripDeviceName name) = ID_NO_DISK_PRESENT) :
    CheckDeviceStatus os name = (1, "") := by
  obtain ⟨node, hn⟩ := Option.ne_none_iff_exists'.mp hf
  simp [CheckDeviceStatus, hn, hl, ha, hi, hd]

/-- Helper: classification when the media query reports media present. -/
lemma CheckDeviceStatus_mounted (os : OSModel) (name : String)
    (hf : FindDosDevice os.devList (StripDeviceName name) ≠ none)
    (hl : os.lockOk (StripDeviceName name) = true)
    (ha : os.allocInfoData = true)
    (hi : os.infoOk (StripDeviceName name) = true)
    (hd : os.diskType (StripDeviceName name) ≠ ID_NO_DISK_PRESENT) :
    CheckDeviceStatus os name =
      (0, (decodeBstr 64 (os.volName (StripDeviceName name))).getD "") := by
  obtain ⟨node, hn⟩ := Option.ne_none_iff_exists'.mp hf
  simp [CheckDeviceStatus, hn, hl, ha, hi, hd]

/-- Helper: shape of the announcement output of the resolution step. -/
lemma resolveDevice_pre (os : OSModel) (drv : String) (q : Bool) (dev : String)
    (clean : String) (pre : List Out)
    (h : resolveDevice os drv q dev = some (clean, pre)) :
    pre = [] ∨ ∃ f, pre = emit q (Out.foundUnit drv (atolDigits dev) f) := by
  unfold resolveDevice at h
  by_cases hn : IsNumber dev = true
  · rw [if_pos hn] at h
    rcases hf : FindDeviceByDriverAndUnit os.devList drv (atolDigits dev) with _ | f
    · rw [hf] at h; cases h
    · rw [hf] at h
      simp only [Option.some.injEq, Prod.mk.injEq] at h
      exact Or.inr ⟨f, h.2.symm⟩
  · rw [if_neg hn] at h
    simp only [Option.some.injEq, Prod.mk.injEq] at h
    exact Or.inl h.2.symm

end CheckDosDevice

namespace CheckDosDevice

/-- C1: every run exits with 0, 5, 10 or 20; a parse failure exits 10; an
unavailable driver exits 20; a numeric identifier with no matching
driver+unit entry exits 10; and in plain mode (neither info nor mountlist)
the exits are 10 when the resolved name is not in the registry, 5 when it
is listed but cannot be locked or reports the no-disk sentinel, and 0 when
the media query reports a mounted volume. -/
theorem mainRun_exit_codes (oargs : Option Arguments) (os : OSModel) :
    ((mainRun oargs os).exit = 0 ∨ (mainRun oargs os).exit = 5 ∨
     (mainRun oargs os).exit = 10 ∨ (mainRun oargs os).exit = 20)
  ∧ (oargs = none → (mainRun oargs os).exit = 10)
  ∧ (∀ args, oargs = some args →
      ((CheckDeviceDriver os (args.driver.getD "diskimage.device") = false →
          (mainRun oargs os).exit = 20)
      ∧ (CheckDeviceDriver os (args.driver.getD "diskimage.device") = true →
          ((resolveDevice os (args.driver.getD "diskimage.device")
              args.quiet args.device = none → (mainRun oargs os).exit = 10)
          ∧ (∀ clean pre,
              resolveDevice os (args.driver.getD "diskimage.device")
                args.quiet args.device = some (clean, pre) →
              args.info = false → args.mountlist = false →
              ((FindDosDevice os.devList (StripDeviceName clean) = none →
                  (mainRun oargs os).exit = 10)
              ∧ (FindDosDevice os.devList (StripDeviceName clean) ≠ none →
                  ((os.lockOk (StripDeviceName clean) = false →
                      (mainRun oargs os).exit = 5)
                  ∧ (os.lockOk (StripDeviceName clean) = true →
                      os.allocInfoData = true →
                      os.infoOk (StripDeviceName clean) = true →
                      ((os.diskType (StripDeviceName clean) = ID_NO_DISK_PRESENT →
                          (mainRun oargs os).exit = 5)
                      ∧ (os.diskType (StripDeviceName clean) ≠ ID_NO_DISK_PRESENT →
                          (mainRun oargs os).exit = 0))))))))))) := by
  refine ⟨?_, fun h => by subst h; rfl, fun args h => ?_⟩
  · rcases oargs with _ | args
    · simp [mainRun]
    · cases hd : CheckDeviceDriver os (args.driver.getD "diskimage.device") with
      | false => simp [mainRun, hd]
      | true =>
          rcases hres : resolveDevice os (args.driver.getD "diskimage.device")
              args.quiet args.device with _ | ⟨clean, pre⟩
          · simp [mainRun, hd, hres]
          · rw [mainRun_eq_resolved os args clean pre hd hres]
            cases hb : (args.info || args.mountlist) with
            | true =>
                simp only [afterResolve, hb, if_true]
                cases FindDosDevice os.devList clean <;> simp
            | false =>
                simp only [afterResolve, hb, Bool.false_eq_true, if_false, statusRC]
                split_ifs <;> simp
  · subst h
    refine ⟨fun hd => by simp [mainRun, hd], fun hd => ⟨fun hres => ?_, ?_⟩⟩
    · simp [mainRun, hd, hres]
    · intro clean pre hres hi hm
      rw [mainRun_eq_resolved os args clean pre hd hres]
      have hb : (args.info || args.mountlist) = false := by rw [hi, hm]; rfl
      refine ⟨fun hnf => ?_, fun hf => ⟨fun hl => ?_, fun hl ha hinfo => ⟨fun hdd => ?_, fun hdd => ?_⟩⟩⟩
      · simp [afterResolve, hb, CheckDeviceStatus_not_found os clean hnf, statusRC]
      · simp [afterResolve, hb, CheckDeviceStatus_no_lock os clean hf hl, statusRC]
      · simp [afterResolve, hb, CheckDeviceStatus_sentinel os clean hf hl ha hinfo hdd,
          statusRC]
      · simp [afterResolve, hb, CheckDeviceStatus_mounted os clean hf hl ha hinfo hdd,
          statusRC]

/-- Witness for C1 at a concrete run: a present, lockable device with
media mounted under plain mode exits 0. -/
theorem mainRun_exit_codes_witness :
    (mainRun (some wArgsPlain) wOS).exit = 0 := by
  have h := (mainRun_exit_codes (some wArgsPlain) wOS).2.2 wArgsPlain rfl
  have h2 := (h.2 (by decide)).2 "DF0" [] (by decide) rfl rfl
  exact ((h2.2 (by decide)).2 rfl rfl rfl).2 (by decide)

/-- C10: when info or mountlist is requested, the run never exits 5 and
never performs the mount-status classification (so no lock is attempted);
and when additionally the driver probe succeeds, the identifier resolves,
and the resolved name is listed, the run exits 0 — regardless of lock or
media state. -/
theorem mainRun_info_no_status (args : Arguments) (os : OSModel) :
    ((args.info || args.mountlist) = true →
      ((mainRun (some args) os).exit ≠ 5 ∧
       (mainRun (some args) os).ranStatusCheck = false))
  ∧ (∀ clean pre, (args.info || args.mountlist) = true →
      CheckDeviceDriver os (args.driver.getD "diskimage.device") = true →
      resolveDevice os (args.driver.getD "diskimage.device")
        args.quiet args.device = some (clean, pre) →
      FindDosDevice os.devList clean ≠ none →
      (mainRun (some args) os).exit = 0) := by
  constructor
  · intro hb
    cases hd : CheckDeviceDriver os (args.driver.getD "diskimage.device") with
    | false => simp [mainRun, hd]
    | true =>
        rcases hres : resolveDevice os (args.driver.getD "diskimage.device")
            args.quiet args.device with _ | ⟨clean, pre⟩
        · simp [mainRun, hd, hres]
        · rw [mainRun_eq_resolved os args clean pre hd hres]
          simp only [afterResolve, hb, if_true]
          cases FindDosDevice os.devList clean <;> simp
  · intro clean pre hb hd hres hf
    obtain ⟨node, hn⟩ := Option.ne_none_iff_exists'.mp hf
    rw [mainRun_eq_resolved os args clean pre hd hres]
    simp [afterResolve, hb, hn]

/-- Sample arguments requesting the info rendering. -/
def wArgsInfo : Arguments := ⟨"DF0", false, none, true, false⟩

/-- Witness for C10: info requested on a listed device exits 0. -/
theorem mainRun_info_no_status_witness :
    (mainRun (some wArgsInfo) wOS).exit = 0 :=
  (mainRun_info_no_status wArgsInfo wOS).2 "DF0" [] rfl (by decide) (by decide)
    (by decide)

end CheckDosDevice


namespace CheckDosDevice

/-- Helper: `mainRun` when the driver probe fails. -/
lemma mainRun_eq_driver_fail (os : OSModel) (args : Arguments)
    (hd : CheckDeviceDriver os (args.driver.getD "diskimage.device") = false) :
    mainRun (some args) os =
      ⟨20, emit args.quiet
             (Out.driverUnavailable (args.driver.getD "diskimage.device")),
       false⟩ := by
  simp [mainRun, hd]

/-- Helper: `mainRun` when a numeric identifier matches no driver+unit
entry. -/
lemma mainRun_eq_no_unit (os : OSModel) (args : Arguments)
    (hd : CheckDeviceDriver os (args.driver.getD "diskimage.device") = true)
    (hres : resolveDevice os (args.driver.getD "diskimage.device")
              args.quiet args.device = none) :
    mainRun (some args) os =
      ⟨10, emit args.quiet
             (Out.noUnitFound (args.driver.getD "diskimage.device")
               (atolDigits args.device)),
       false⟩ := by
  simp [mainRun, hd, hres]

/-- Helper: a single gated output event satisfies any predicate it
satisfies. -/
lemma emit_all (q : Bool) (e : Out) (p : Out → Bool) (h : p e = true) :
    (emit q e).all p = true := by
  cases q <;> simp [emit, h]

/-- C4 (amended): when both info and mountlist are requested and the
resolved device is listed, both renderings appear in the output; whenever
either switch is requested, the status classification does not run and no
plain status line is emitted; and when the resolved device is not listed
while either switch is requested, neither rendering appears, no status
line (in particular no device-not-found message) is emitted, and the run
exits 10. -/
theorem mainRun_render_rules (args : Arguments) (os : OSModel) :
    (∀ clean pre, args.info = true → args.mountlist = true →
      args.quiet = false →
      CheckDeviceDriver os (args.driver.getD "diskimage.device") = true →
      resolveDevice os (args.driver.getD "diskimage.device")
        args.quiet args.device = some (clean, pre) →
      FindDosDevice os.devList clean ≠ none →
      (Out.infoDump clean ∈ (mainRun (some args) os).output ∧
       Out.mountlistDump clean ∈ (mainRun (some args) os).output))
  ∧ ((args.info || args.mountlist) = true →
      ((mainRun (some args) os).ranStatusCheck = false ∧
       (mainRun (some args) os).output.all (fun e => !e.isStatusLine) = true))
  ∧ (∀ clean pre, (args.info || args.mountlist) = true →
      CheckDeviceDriver os (args.driver.getD "diskimage.device") = true →
      resolveDevice os (args.driver.getD "diskimage.device")
        args.quiet args.device = some (clean, pre) →
      FindDosDevice os.devList clean = none →
      ((mainRun (some args) os).exit = 10 ∧
       (mainRun (some args) os).output.all
         (fun e => !e.isStatusLine && !e.isInfoDump && !e.isMountlistDump)
         = true)) := by
  refine ⟨?_, ?_, ?_⟩
  · intro clean pre hi hm hq hd hres hf
    obtain ⟨node, hn⟩ := Option.ne_none_iff_exists'.mp hf
    rw [mainRun_eq_resolved os args clean pre hd hres]
    simp [afterResolve, hi, hm, hn, hq, emit]
  · intro hb
    cases hd : CheckDeviceDriver os (args.driver.getD "diskimage.device") with
    | false =>
        rw [mainRun_eq_driver_fail os args hd]
        exact ⟨rfl, emit_all _ _ _ (by simp [Out.isStatusLine])⟩
    | true =>
        rcases hres : resolveDevice os (args.driver.getD "diskimage.device")
            args.quiet args.device with _ | ⟨clean, pre⟩
        · rw [mainRun_eq_no_unit os args hd hres]
          exact ⟨rfl, emit_all _ _ _ (by simp [Out.isStatusLine])⟩
        · rw [mainRun_eq_resolved os args clean pre hd hres]
          have hpre := resolveDevice_pre os _ args.quiet args.device clean pre hres
          have hpall : pre.all (fun e => !e.isStatusLine) = true := by
            rcases hpre with rfl | ⟨f, rfl⟩
            · rfl
            · exact emit_all _ _ _ (by simp [Out.isStatusLine])
          simp only [afterResolve, hb, if_true]
          cases hfd : FindDosDevice os.devList clean with
          | none => exact ⟨rfl, hpall⟩
          | some node =>
              refine ⟨rfl, ?_⟩
              have h2 : (if args.info then emit args.quiet (Out.infoDump clean)
                  else []).all (fun e => !e.isStatusLine) = true := by
                cases args.info
                · rfl
                · exact emit_all _ _ _ (by simp [Out.isStatusLine])
              have h3 : (if args.mountlist then
                  emit args.quiet (Out.mountlistDump clean)
                  else []).all (fun e => !e.isStatusLine) = true := by
                cases args.mountlist
                · rfl
                · exact emit_all _ _ _ (by simp [Out.isStatusLine])
              simp [List.all_append, hpall, h2, h3]
  · intro clean pre hb hd hres hfd
    rw [mainRun_eq_resolved os args clean pre hd hres]
    have hpre := resolveDevice_pre os _ args.quiet args.device clean pre hres
    simp only [afterResolve, hb, if_true, hfd]
    refine ⟨by trivial, ?_⟩
    rcases hpre with rfl | ⟨f, rfl⟩
    · rfl
    · exact emit_all _ _ _
        (by simp [Out.isStatusLine, Out.isInfoDump, Out.isMountlistDump])

/-- Sample arguments requesting both renderings. -/
def wArgsBoth : Arguments := ⟨"DF0", false, none, true, true⟩

/-- Witness for C4 (amended) at a concrete run with both switches. -/
theorem mainRun_render_rules_witness :
    Out.infoDump "DF0" ∈ (mainRun (some wArgsBoth) wOS).output ∧
    Out.mountlistDump "DF0" ∈ (mainRun (some wArgsBoth) wOS).output :=
  (mainRun_render_rules wArgsBoth wOS).1 "DF0" [] rfl rfl rfl (by decide)
    (by decide) (by decide)

/-- Sample OS state whose device list is empty. -/
def wOSEmpty : OSModel :=
  ⟨true, true, fun _ => true, [], fun _ => true, true, fun _ => true,
   fun _ => 0, fun _ => none⟩

/-- Counterexample to C4 as stated: with info requested and the device
absent from the registry, the run exits 10 but the device-not-found
status line is NOT in the output (the claim asserts it is printed). -/
theorem mainRun_notFound_message_cex :
    (mainRun (some wArgsInfo) wOSEmpty).exit = 10 ∧
    (mainRun (some wArgsInfo) wOSEmpty).output.any Out.isStatusNotFound
      = false := by
  decide

end CheckDosDevice

namespace CheckDosDevice

/-- Acceptance condition the by-driver+unit scan actually uses for an
entry: startup info present, driver name decodable and equal to the
requested driver case-insensitively, unit equal, AND the entry's own name
non-null with positive signed length byte. -/
def fdbduAccepts (drv : String) (u : Nat) (node : DeviceNode) : Bool :=
  match node.dn_Startup with
  | some st =>
      match decodeBstr 108 st.fssm_Device with
      | some devName =>
          striEq devName drv && (st.fssm_Unit == u) &&
            (match node.dn_Name with
             | some l => decide (0 < l.length) && decide (l.length ≤ 127)
             | none => false)
      | none => false
  | none => false

/-- Name copied out for an accepted entry: the entry name when it fits
the 108-byte buffer, the untouched empty buffer otherwise. -/
def fdbduName (node : DeviceNode) : String :=
  match node.dn_Name with
  | some l => if l.length < 107 then String.mk l else ""
  | none => ""

/-- Acceptance condition exactly as the claim words it: startup info
whose decoded driver name equals the requested driver case-insensitively
and whose unit number matches — with no condition on the entry's own
name. -/
def claimAccepts (drv : String) (u : Nat) (node : DeviceNode) : Bool :=
  match node.dn_Startup with
  | some st =>
      match decodeBstr 108 st.fssm_Device with
      | some devName => striEq devName drv && (st.fssm_Unit == u)
      | none => false
  | none => false

/-- C7 (amended): the by-driver+unit lookup returns the first entry
satisfying `fdbduAccepts` (which, beyond the claim's driver and unit
conditions, also requires the entry's own name to be present with a
positive signed length byte); any entry not satisfying it is passed over
without terminating the scan. -/
theorem FindDeviceByDriverAndUnit_first_match (drv : String) (u : Nat)
    (node : DeviceNode) (rest : List DeviceNode) :
    (fdbduAccepts drv u node = false →
      FindDeviceByDriverAndUnit (node :: rest) drv u =
        FindDeviceByDriverAndUnit rest drv u)
  ∧ (fdbduAccepts drv u node = true →
      FindDeviceByDriverAndUnit (node :: rest) drv u =
        some (fdbduName node)) := by
  constructor
  · intro h
    simp only [fdbduAccepts] at h
    simp only [FindDeviceByDriverAndUnit]
    rcases hst : node.dn_Startup with _ | st
    · simp only [hst]
    · simp only [hst] at h ⊢
      rcases hdev : decodeBstr 108 st.fssm_Device with _ | devName
      · simp only [hdev] at h ⊢
      · simp only [hdev] at h ⊢
        by_cases hm : striEq devName drv ∧ st.fssm_Unit = u
        · rcases hname : node.dn_Name with _ | l
          · simp only [hname] at h ⊢
            rw [if_pos hm]
          · simp only [hname] at h ⊢
            have hcond : ¬(0 < l.length ∧ l.length ≤ 127) := by
              intro hc
              rw [hm.1] at h
              simp [hm.2, hc.1, hc.2] at h
            rw [if_pos hm, if_neg hcond]
        · rw [if_neg hm]
  · intro h
    simp only [fdbduAccepts] at h
    simp only [FindDeviceByDriverAndUnit, fdbduName]
    rcases hst : node.dn_Startup with _ | st
    · simp [hst] at h
    · simp only [hst] at h ⊢
      rcases hdev : decodeBstr 108 st.fssm_Device with _ | devName
      · simp [hdev] at h
      · simp only [hdev] at h ⊢
        rcases hname : node.dn_Name with _ | l
        · simp [hname] at h
        · simp only [hname] at h ⊢
          simp only [Bool.and_eq_true, decide_eq_true_eq, beq_iff_eq] at h
          obtain ⟨⟨h1, h2⟩, h3, h4⟩ := h
          rw [if_pos ⟨h1, h2⟩, if_pos ⟨h3, h4⟩]

/-- Entry with matching startup driver and unit but a null own name. -/
def cexNode7 : DeviceNode :=
  ⟨0, none, some ⟨['f', 'o', 'o'], 0, 0, none⟩, none⟩

/-- Entry with matching startup driver and unit and a decodable name. -/
def cexNode7b : DeviceNode :=
  ⟨0, some ['X'], some ⟨['f', 'o', 'o'], 0, 0, none⟩, none⟩

/-- Counterexample to C7 as stated: this entry possesses startup info
whose decoded driver name equals the requested driver and whose unit
matches exactly, so by the claim the scan should return it as first
match; the code instead passes it over (its own name is null) and the
lookup fails. -/
theorem FindDeviceByDriverAndUnit_first_match_cex :
    claimAccepts "foo" 0 cexNode7 = true ∧
    FindDeviceByDriverAndUnit [cexNode7] "foo" 0 = none := by
  decide

/-- Witness for C7 (amended) at a concrete accepted entry. -/
theorem FindDeviceByDriverAndUnit_first_match_witness :
    FindDeviceByDriverAndUnit [cexNode7b] "foo" 0 = some "X" := by
  rw [(FindDeviceByDriverAndUnit_first_match "foo" 0 cexNode7b []).2 (by decide)]
  decide

end CheckDosDevice

namespace CheckDosDevice

/-- C9 (amended): the by-name traversal skips any entry whose name fails
to decode (null pointer, zero or non-positive signed length, or too long
for the 108-byte buffer) and continues with the rest; the by-driver+unit
traversal skips entries whose own name is null, empty, or has a
non-positive signed length byte, entries without startup info, and
entries whose driver name fails to decode; and no successful decode ever
exceeds its buffer (the decoded length is below capacity minus one).
The one exception the code makes to the claim: a driver+unit match whose
own name is positive but does not fit the output buffer terminates the
scan (see the counterexample). -/
theorem traversal_skips_undecodable (node : DeviceNode)
    (rest : List DeviceNode) (q drv : String) (u : Nat) :
    (decodeBstr 108 node.dn_Name = none →
      FindDosDevice (node :: rest) q = FindDosDevice rest q)
  ∧ ((node.dn_Name = none ∨
      (∃ l, node.dn_Name = some l ∧ (l.length = 0 ∨ 128 ≤ l.length))) →
      FindDeviceByDriverAndUnit (node :: rest) drv u =
        FindDeviceByDriverAndUnit rest drv u)
  ∧ (node.dn_Startup = none →
      FindDeviceByDriverAndUnit (node :: rest) drv u =
        FindDeviceByDriverAndUnit rest drv u)
  ∧ (∀ st, node.dn_Startup = some st → decodeBstr 108 st.fssm_Device = none →
      FindDeviceByDriverAndUnit (node :: rest) drv u =
        FindDeviceByDriverAndUnit rest drv u)
  ∧ (∀ cap b s, decodeBstr cap b = some s → s.length < cap - 1) := by
  refine ⟨fun h => ?_, fun h => ?_, fun h => ?_, fun st hst hdev => ?_,
    fun cap b s h => ?_⟩
  · simp only [FindDosDevice, h]
  · simp only [FindDeviceByDriverAndUnit]
    rcases hst : node.dn_Startup with _ | st
    · simp only [hst]
    · simp only [hst]
      rcases hdev : decodeBstr 108 st.fssm_Device with _ | devName
      · simp only [hdev]
      · by_cases hm : striEq devName drv ∧ st.fssm_Unit = u
        · rcases h with hnone | ⟨l, hl, hlen⟩
          · simp only [hdev, hnone, ite_self]
          · simp only [hdev, hl]
            have hcond : ¬(0 < l.length ∧ l.length ≤ 127) := by omega
            rw [if_pos hm, if_neg hcond]
        · simp only [hdev]
          rw [if_neg hm]
  · simp only [FindDeviceByDriverAndUnit, h]
  · simp only [FindDeviceByDriverAndUnit, hst, hdev]
  · rcases b with _ | l
    · simp [decodeBstr] at h
    · simp only [decodeBstr] at h
      by_cases hc : 0 < l.length ∧ l.length ≤ 127 ∧ l.length < cap - 1
      · rw [if_pos hc] at h
        obtain rfl : String.mk l = s := Option.some.inj h
        exact hc.2.2
      · rw [if_neg hc] at h
        cases h

/-- Device entry with a name that is positive but too long for the
108-byte buffer (107 characters), and matching startup info. -/
def cexNodeLong : DeviceNode :=
  ⟨0, some (List.replicate 107 'N'), some ⟨['f', 'o', 'o'], 0, 0, none⟩, none⟩

/-- Counterexample to C9 as stated: `cexNodeLong` has a name that does
not fit the decode buffer, and the later entry `cexNode7b` matches on its
own; yet with `cexNodeLong` first, the driver+unit scan does NOT skip to
the later match — it terminates at the oversized entry with an empty
copied-out name. -/
theorem traversal_skips_undecodable_cex :
    decodeBstr 108 cexNodeLong.dn_Name = none ∧
    FindDeviceByDriverAndUnit [cexNode7b] "foo" 0 = some "X" ∧
    FindDeviceByDriverAndUnit [cexNodeLong, cexNode7b] "foo" 0 = some "" := by
  decide

/-- Witness for C9 at a concrete list: an entry with a null name is
skipped and the later entry still matches by name. -/
theorem traversal_skips_undecodable_witness :
    FindDosDevice [⟨0, none, none, none⟩, wNode] "DF0" = some wNode := by
  rw [(traversal_skips_undecodable ⟨0, none, none, none⟩ [wNode] "DF0"
    "diskimage.device" 0).1 rfl]
  decide

/-- Strip rule exactly as the claim words it: the identifier is used
directly with at most one trailing colon removed, with no truncation. -/
def claimedStrip (s : String) : String :=
  if s.data.getLast? = some ':' then String.mk s.data.dropLast else s

/-- C8 (amended): the identifier-classification predicate is true exactly
on non-empty all-digit strings; a numeric identifier is resolved through
the driver+unit lookup and any other identifier is used directly after
truncation to the 107-character name buffer and removal of at most one
trailing colon — which, for identifiers of at most 107 characters, is
exactly the identifier with at most one trailing colon stripped. -/
theorem IsNumber_resolution (s : String) :
    (IsNumber s = true ↔
      (s.data ≠ [] ∧ ∀ c ∈ s.data, ('0' ≤ c ∧ c ≤ '9')))
  ∧ (s.data.length ≤ 107 → StripDeviceName s = claimedStrip s)
  ∧ (∀ os drv q, IsNumber s = false →
      resolveDevice os drv q s = some (StripDeviceName s, []))
  ∧ (∀ os drv q, IsNumber s = true →
      resolveDevice os drv q s =
        (FindDeviceByDriverAndUnit os.devList drv (atolDigits s)).map
          (fun f => (StripDeviceName f,
            emit q (Out.foundUnit drv (atolDigits s) f)))) := by
  refine ⟨?_, fun h => ?_, fun os drv q h => ?_, fun os drv q h => ?_⟩
  · simp [IsNumber, isDigitChar, List.all_eq_true, List.isEmpty_iff]
  · unfold StripDeviceName claimedStrip
    rw [List.take_of_length_le h]
  · simp [resolveDevice, h]
  · simp only [resolveDevice, h, if_true]
    rcases hf : FindDeviceByDriverAndUnit os.devList drv (atolDigits s)
        with _ | f <;> simp [hf]

/-- Non-numeric identifier of 108 characters whose 107th character is a
colon and whose last character is not. -/
def cexName8 : String := String.mk (List.replicate 106 'A' ++ [':', 'B'])

/-- Counterexample to C8 as stated: for this 108-character identifier the
code does not use it directly with at most one trailing colon stripped —
truncation to the 107-byte buffer exposes the embedded colon and the name
actually used is the 106-character prefix. -/
theorem IsNumber_resolution_cex :
    IsNumber cexName8 = false ∧
    StripDeviceName cexName8 ≠ claimedStrip cexName8 ∧
    StripDeviceName cexName8 = String.mk (List.replicate 106 'A') := by
  decide

/-- Witness for C8: a non-numeric identifier resolves directly to its
stripped name. -/
theorem IsNumber_resolution_witness :
    resolveDevice wOS "diskimage.device" false "DF0" = some ("DF0", []) := by
  rw [(IsNumber_resolution "DF0").2.2.1 wOS "diskimage.device" false (by decide)]
  decide

end CheckDosDevice

namespace CheckDosDevice

/-- Helper: scan of a conditionally emitted single line. -/
lemma any_single_if (c : Prop) [Decidable c] (x : MLine) (p : MLine → Bool) :
    (if c then [x] else []).any p = (decide c && p x) := by
  split_ifs with h <;> simp [h]

/-- Helper: scan of a conditionally emitted block. -/
lemma any_if_lists (c : Prop) [Decidable c] (l1 l2 : List MLine)
    (p : MLine → Bool) :
    (if c then l1 else l2).any p = (if c then l1.any p else l2.any p) := by
  split_ifs <;> rfl

/-- Helper: the handler line never matches a predicate that is false on
handler lines. -/
lemma any_mlHandler (node : DeviceNode) (st : FileSysStartupMsg)
    (p : MLine → Bool) (h1 : ∀ s b, p (MLine.handlerL s b) = false)
    (h2 : p MLine.handlerManual = false) :
    (mlHandler node st).any p = false := by
  unfold mlHandler
  cases hdh : decodeBstr 108 node.dn_Handler with
  | some hh => simp [h1]
  | none =>
      cases henv : st.fssm_Environ with
      | none => simp [h2]
      | some env =>
          by_cases hc : 12 ≤ env.de_TableSize ∧ env.de_DosType ≠ 0 <;>
            simp [hc, h1, h2]

/-- Helper: the device line never matches a predicate that is false on
device lines. -/
lemma any_mlDevice (st : FileSysStartupMsg) (p : MLine → Bool)
    (h : ∀ s, p (MLine.deviceL s) = false) :
    (mlDevice st).any p = false := by
  unfold mlDevice
  cases hd : decodeBstr 108 st.fssm_Device <;> simp [h]

/-- C5 (amended): for a device with startup info and an environment
vector, the mountlist rendering omits the Reserved line iff the reserved
count is 2, the Interleave line iff the interleave is 0, and the Flags
line iff the startup flags are 0; and when the environment's table size
is at least 12 (the extended variant, the only case in which the code
emits extended fields at all) it omits BufMemType iff 0, MaxTransfer iff
0x7FFFFFFF, Mask iff 0xFFFFFFFE, BootPri iff 0, and DosType iff
0x444F5300. -/
theorem GenerateMountlist_default_omission (dev : String) (node : DeviceNode)
    (st : FileSysStartupMsg) (env : DosEnvec)
    (hst : node.dn_Startup = some st) (henv : st.fssm_Environ = some env) :
    (((GenerateMountlist dev node).any MLine.isReservedL = false) ↔
        env.de_Reserved = 2)
  ∧ (((GenerateMountlist dev node).any MLine.isInterleaveL = false) ↔
        env.de_Interleave = 0)
  ∧ (((GenerateMountlist dev node).any MLine.isFlagsL = false) ↔
        st.fssm_Flags = 0)
  ∧ (12 ≤ env.de_TableSize →
      ((((GenerateMountlist dev node).any MLine.isBufMemTypeL = false) ↔
          env.de_BufMemType = 0)
      ∧ (((GenerateMountlist dev node).any MLine.isMaxTransferL = false) ↔
          env.de_MaxTransfer = 0x7FFFFFFF)
      ∧ (((GenerateMountlist dev node).any MLine.isMaskL = false) ↔
          env.de_Mask = 0xFFFFFFFE)
      ∧ (((GenerateMountlist dev node).any MLine.isBootPriL = false) ↔
          env.de_BootPri = 0)
      ∧ (((GenerateMountlist dev node).any MLine.isDosTypeL = false) ↔
          env.de_DosType = 0x444F5300))) := by
  refine ⟨?_, ?_, ?_, fun ht => ⟨?_, ?_, ?_, ?_, ?_⟩⟩
  · have hH := any_mlHandler node st MLine.isReservedL (fun s b => rfl) rfl
    have hD := any_mlDevice st MLine.isReservedL (fun s => rfl)
    simp only [GenerateMountlist, hst, henv]
    simp [List.any_append, hH, hD, mlEnv, any_single_if, any_if_lists,
      MLine.isReservedL]
  · have hH := any_mlHandler node st MLine.isInterleaveL (fun s b => rfl) rfl
    have hD := any_mlDevice st MLine.isInterleaveL (fun s => rfl)
    simp only [GenerateMountlist, hst, henv]
    simp [List.any_append, hH, hD, mlEnv, any_single_if, any_if_lists,
      MLine.isInterleaveL]
  · have hH := any_mlHandler node st MLine.isFlagsL (fun s b => rfl) rfl
    have hD := any_mlDevice st MLine.isFlagsL (fun s => rfl)
    simp only [GenerateMountlist, hst, henv]
    simp [List.any_append, hH, hD, mlEnv, any_single_if, any_if_lists,
      MLine.isFlagsL]
  · have hH := any_mlHandler node st MLine.isBufMemTypeL (fun s b => rfl) rfl
    have hD := any_mlDevice st MLine.isBufMemTypeL (fun s => rfl)
    simp only [GenerateMountlist, hst, henv]
    simp [List.any_append, hH, hD, mlEnv, any_single_if, any_if_lists,
      MLine.isBufMemTypeL, ht]
  · have hH := any_mlHandler node st MLine.isMaxTransferL (fun s b => rfl) rfl
    have hD := any_mlDevice st MLine.isMaxTransferL (fun s => rfl)
    simp only [GenerateMountlist, hst, henv]
    simp [List.any_append, hH, hD, mlEnv, any_single_if, any_if_lists,
      MLine.isMaxTransferL, ht]
  · have hH := any_mlHandler node st MLine.isMaskL (fun s b => rfl) rfl
    have hD := any_mlDevice st MLine.isMaskL (fun s => rfl)
    simp only [GenerateMountlist, hst, henv]
    simp [List.any_append, hH, hD, mlEnv, any_single_if, any_if_lists,
      MLine.isMaskL, ht]
  · have hH := any_mlHandler node st MLine.isBootPriL (fun s b => rfl) rfl
    have hD := any_mlDevice st MLine.isBootPriL (fun s => rfl)
    simp only [GenerateMountlist, hst, henv]
    simp [List.any_append, hH, hD, mlEnv, any_single_if, any_if_lists,
      MLine.isBootPriL, ht]
  · have hH := any_mlHandler node st MLine.isDosTypeL (fun s b => rfl) rfl
    have hD := any_mlDevice st MLine.isDosTypeL (fun s => rfl)
    simp only [GenerateMountlist, hst, henv]
    simp [List.any_append, hH, hD, mlEnv, any_single_if, any_if_lists,
      MLine.isDosTypeL, ht]

/-- Environment vector with every documented default value and the full
extended table. -/
def wEnvDefaults : DosEnvec :=
  ⟨16, 2, 11, 2, 0, 0, 79, 5, 0, 0x7FFFFFFF, 0xFFFFFFFE, 0, 0x444F5300⟩

/-- Device node with startup info carrying `wEnvDefaults`. -/
def wNodeML : DeviceNode :=
  ⟨0, some ['D', 'H', '0'],
   some ⟨some ['s', 'c', 's', 'i'], 0, 0, some wEnvDefaults⟩, none⟩

/-- Witness for C5 (amended): at all-default geometry the Reserved and
MaxTransfer lines are absent. -/
theorem GenerateMountlist_default_omission_witness :
    (GenerateMountlist "DH0" wNodeML).any MLine.isReservedL = false ∧
    (GenerateMountlist "DH0" wNodeML).any MLine.isMaxTransferL = false := by
  have h := GenerateMountlist_default_omission "DH0" wNodeML _ _ rfl rfl
  exact ⟨h.1.mpr rfl, ((h.2.2.2 (by decide)).2.1).mpr rfl⟩

/-- Environment vector with a short table (size 11) and a non-zero,
non-default buffer-memory type. -/
def cexEnv5 : DosEnvec :=
  ⟨11, 2, 11, 2, 0, 0, 79, 5, 1, 0x7FFFFFFF, 0xFFFFFFFE, 0, 0x444F5300⟩

/-- Device node with startup info carrying `cexEnv5`. -/
def cexNode5 : DeviceNode := ⟨0, none, some ⟨none, 0, 0, some cexEnv5⟩, none⟩

/-- Counterexample to C5 as stated: with a geometry of table size 11 the
BufMemType line is absent even though the buffer-memory type is 1, not
the documented default 0 — so "absent iff equal to the default" fails for
geometries without the extended table. -/
theorem GenerateMountlist_default_omission_cex :
    (GenerateMountlist "TEST" cexNode5).any MLine.isBufMemTypeL = false ∧
    cexEnv5.de_BufMemType ≠ 0 := by
  decide

end CheckDosDevice
